import Mathlib

/-!
Shallow embedding of `src/backend.py` (class `BackendManager`) of the
Transpile repository, together with theorems settling the spec claims
about the backend/noise-model registry.

Modelling conventions:
* Python `dict` is an association list `List (String × α)` with Python
  insertion-order semantics: assigning to an existing key updates the
  value in place, assigning to a new key appends at the end.
* Python `float` probabilities are modelled as `ℚ`.
* A Python call that may `raise` is modelled as `Except String`; an
  exception name such as `ValueError` or qiskit's `NoiseError` becomes
  part of the message string of the `Except.error`.
* The external qiskit-aer constructors `depolarizing_error`, `pauli_error`,
  `NoiseModel` and `AerSimulator`, which `backend.py` calls, are modelled
  from their documented library behaviour (see each definition's comment).
* The `qiskit_ibm_provider` remote-discovery environment (whether the
  module imported, whether `save_account` / `load_account` /
  `get_provider` succeed, and the outcome of enumerating the provider's
  backends) is abstracted into an `IBMQEnv` value passed to `__init__`.
-/

set_option autoImplicit false

namespace Transpile

/-- Association-list lookup with Python `dict` access semantics:
returns the value stored at the first (hence unique) occurrence of the key. -/
def dictGet {α : Type} : List (String × α) → String → Option α
  | [], _ => none
  | (k, v) :: rest, key => if k = key then some v else dictGet rest key

/-- Association-list assignment with Python `dict` semantics: an existing
key is updated in place (keeping its position), a new key is appended. -/
def dictInsert {α : Type} : List (String × α) → String → α → List (String × α)
  | [], key, v => [(key, v)]
  | (k, w) :: rest, key, v =>
    if k = key then (key, v) :: rest else (k, w) :: dictInsert rest key v

/-- A quantum error channel as qiskit-aer represents the Pauli-channel
case: a list of Pauli labels with their probabilities. -/
structure QuantumError where
  probs : List (String × ℚ)
deriving DecidableEq

/-- Qiskit-aer `NoiseModel`: the per-instruction default quantum errors
added via `add_all_qubit_quantum_error`. `NoiseModel()` is `empty`. -/
structure NoiseModel where
  default_quantum_errors : List (String × QuantumError)
deriving DecidableEq

/-- The empty (no-op) noise model `NoiseModel()`. -/
def NoiseModel.empty : NoiseModel := ⟨[]⟩

/-- `nm.add_all_qubit_quantum_error(err, instructions)`: attach `err` to
every instruction name in the list. -/
def NoiseModel.add_all_qubit_quantum_error
    (nm : NoiseModel) (err : QuantumError) (instructions : List String) : NoiseModel :=
  ⟨instructions.foldl (fun d inst => dictInsert d inst err) nm.default_quantum_errors⟩

/-- All length-`n` Pauli label strings over I, X, Y, Z, the all-identity
label first, in the order `itertools.product` enumerates them. -/
def pauliStrings : Nat → List String
  | 0 => [""]
  | n + 1 => (["I", "X", "Y", "Z"].map (fun c => (pauliStrings n).map (fun s => c ++ s))).flatten

/-- Qiskit-aer `depolarizing_error(param, num_qubits)` (library function
called by `backend.py`, modelled from qiskit-aer `standard_errors`): with
`num_terms = 4 ** num_qubits` it rejects `param` outside
`[0, num_terms / (num_terms - 1)]` with a `NoiseError`, and otherwise
builds the Pauli channel giving the identity probability
`1 - (num_terms - 1) * param / num_terms` and every non-identity Pauli
probability `param / num_terms`. -/
def depolarizing_error (param : ℚ) (num_qubits : Nat) : Except String QuantumError :=
  let num_terms : ℚ := (4 : ℚ) ^ num_qubits
  let max_param : ℚ := num_terms / (num_terms - 1)
  if param < 0 ∨ max_param < param then
    .error "NoiseError: Invalid depolarizing error parameter."
  else
    let prob_error : ℚ := param / num_terms
    let prob_iden : ℚ := 1 - (num_terms - 1) * prob_error
    .ok ⟨match pauliStrings num_qubits with
         | [] => []
         | iden :: rest => (iden, prob_iden) :: rest.map (fun s => (s, prob_error))⟩

/-- Qiskit-aer `pauli_error(noise_ops)` (library function called by
`backend.py`): builds a `QuantumError` from Pauli/probability pairs,
rejecting with a `NoiseError` any negative probability or a probability
list that does not sum to 1. -/
def pauli_error (noise_ops : List (String × ℚ)) : Except String QuantumError :=
  if (∀ op ∈ noise_ops, 0 ≤ op.2) ∧ (noise_ops.map Prod.snd).sum = 1 then
    .ok ⟨noise_ops⟩
  else
    .error "NoiseError: Invalid Pauli error probabilities."

/-- Calibration data a remote device may carry (`backend.properties()`):
either well formed, in which case `NoiseModel.from_backend` derives the
noise model `derived` from it, or malformed, in which case
`NoiseModel.from_backend` raises. -/
structure Calibration where
  wellFormed : Bool
  derived : NoiseModel
deriving DecidableEq

/-- An execution target held by the registry: an `AerSimulator(method=...)`
built-in, or a remote IBM device with its name, simulator flag and
optional calibration data. -/
inductive Backend where
  | aer (method : String)
  | ibm (name : String) (simulator : Bool) (calibration : Option Calibration)
deriving DecidableEq

/-- `backend.properties()`: an `AerSimulator` has no stored properties
(`BackendV1.properties()` returns `None`); a remote device returns its
calibration data when it has any. -/
def Backend.properties : Backend → Option Calibration
  | .aer _ => none
  | .ibm _ _ cal => cal

/-- Whether a registry entry is one of the built-in Aer simulators. -/
def Backend.isAer : Backend → Bool
  | .aer _ => true
  | .ibm _ _ _ => false

/-- Qiskit-aer `NoiseModel.from_backend(props)` (library function called
by `backend.py`): raises a `NoiseError` on `None` or malformed
properties, otherwise derives the noise model from the calibration. -/
def NoiseModel.from_backend : Option Calibration → Except String NoiseModel
  | none => .error "NoiseError: Invalid backend properties."
  | some cal =>
    if cal.wellFormed then .ok cal.derived
    else .error "NoiseError: Malformed calibration data."

/-- One step of the provider backend enumeration in `__init__`: either a
backend is yielded (with its `name()`, `configuration().simulator` flag
and calibration), or the enumeration raises at this point. -/
inductive RemoteStep where
  | ok (name : String) (simulator : Bool) (calibration : Option Calibration)
  | fail
deriving DecidableEq

/-- The remote-discovery environment `__init__` runs against: whether the
`qiskit_ibm_provider` import succeeded, whether `save_account`,
`load_account` and `get_provider` succeed, and the enumeration of the
provider's backends. -/
structure IBMQEnv where
  available : Bool
  saveOk : Bool
  loadOk : Bool
  providerOk : Bool
  backends : List RemoteStep
deriving DecidableEq

/-- Python truthiness of the `ibm_api_token` argument (`None` and the
empty string are falsy). -/
def tokenTruthy : Option String → Bool
  | none => false
  | some s => !(s = "")

/-- The `for b in provider.backends():` loop body of `__init__`: register
each non-simulator backend under `"IBM " + b.name()`; an exception mid
enumeration (`RemoteStep.fail`) aborts the loop, keeping what was already
assigned (the exception is then caught by the surrounding `except`). -/
def registerRemote : List RemoteStep → List (String × Backend) → List (String × Backend)
  | [], acc => acc
  | .fail :: _, acc => acc
  | .ok n sim cal :: rest, acc =>
    registerRemote rest (if sim then acc else dictInsert acc ("IBM " ++ n) (.ibm n sim cal))

/-- The two built-in simulators `__init__` always loads first:
`AerSimulator(method='statevector')` and `AerSimulator(method='qasm')`. -/
def defaultBackends : List (String × Backend) :=
  [("Aer (statevector)", Backend.aer "statevector"),
   ("Aer (qasm)", Backend.aer "qasm")]

/-- The state of a `BackendManager` instance. -/
structure BackendManager where
  backends : List (String × Backend)
  noise_models : List (String × NoiseModel)
  active_backend : Backend
deriving DecidableEq

/-- `BackendManager.__init__(ibm_api_token, ...)`: load the two Aer
simulators, then, if the provider module imported and a truthy token was
given, try remote discovery, silently swallowing any failure; finally set
the active backend to `self.backends["Aer (statevector)"]`. The `getD`
default is never taken: `init_backends_sv` below proves the lookup always
succeeds, so Python's `KeyError` cannot occur on this line. -/
def BackendManager.init (env : IBMQEnv) (ibm_api_token : Option String) : BackendManager :=
  let base := defaultBackends
  let bks :=
    if env.available && tokenTruthy ibm_api_token then
      if env.saveOk && env.loadOk && env.providerOk then
        registerRemote env.backends base
      else base
    else base
  { backends := bks
    noise_models := []
    active_backend := (dictGet bks "Aer (statevector)").getD (Backend.aer "statevector") }

/-- `list_backends(self)`: `list(self.backends.keys())`. -/
def BackendManager.list_backends (s : BackendManager) : List String :=
  s.backends.map Prod.fst

/-- `set_backend(self, name)`: raise `ValueError` if the name is unknown
(state unchanged), else assign and return the active backend. -/
def BackendManager.set_backend (s : BackendManager) (name : String) :
    Except String Backend × BackendManager :=
  match dictGet s.backends name with
  | none => (.error "ValueError: Backend not available.", s)
  | some b => (.ok b, { s with active_backend := b })

/-- `get_backend(self)`: the active backend. -/
def BackendManager.get_backend (s : BackendManager) : Backend :=
  s.active_backend

/-- `create_noise_model(self, backend_name)`: raise `ValueError` for an
unknown name; otherwise try `NoiseModel.from_backend(backend.properties())`,
falling back to an empty `NoiseModel()` on any exception, cache the
result under the name and return it. -/
def BackendManager.create_noise_model (s : BackendManager) (backend_name : String) :
    Except String NoiseModel × BackendManager :=
  match dictGet s.backends backend_name with
  | none => (.error "ValueError: Backend not available.", s)
  | some backend =>
    let nm :=
      match NoiseModel.from_backend backend.properties with
      | .ok nm => nm
      | .error _ => NoiseModel.empty
    (.ok nm, { s with noise_models := dictInsert s.noise_models backend_name nm })

/-- `get_noise_model(self, backend_name)`:
`self.noise_models.get(backend_name, NoiseModel())`. -/
def BackendManager.get_noise_model (s : BackendManager) (backend_name : String) : NoiseModel :=
  (dictGet s.noise_models backend_name).getD NoiseModel.empty

/-- `sample_depolarizing(p)`: a fresh noise model with
`depolarizing_error(p, 1)` attached to `['u1', 'u2', 'u3']`; the only
failure mode is the library constructor rejecting `p`. -/
def BackendManager.sample_depolarizing (p : ℚ) : Except String NoiseModel :=
  match depolarizing_error p 1 with
  | .error e => .error e
  | .ok err => .ok (NoiseModel.empty.add_all_qubit_quantum_error err ["u1", "u2", "u3"])

/-- `sample_pauli(p)`: a fresh noise model with
`pauli_error([('X', p), ('I', 1-p)])` attached to `['cx']`; the only
failure mode is the library constructor rejecting the probabilities. -/
def BackendManager.sample_pauli (p : ℚ) : Except String NoiseModel :=
  match pauli_error [("X", p), ("I", 1 - p)] with
  | .error e => .error e
  | .ok err => .ok (NoiseModel.empty.add_all_qubit_quantum_error err ["cx"])

/-- A registry method call, for stating lifetime invariants. Read-only
calls are listed too, to make explicit that they do not change state. -/
inductive Op where
  | set_backend (name : String)
  | create_noise_model (name : String)
  | get_noise_model (name : String)
  | get_backend
  | list_backends
deriving DecidableEq

/-- State transition of one registry method call. -/
def applyOp (s : BackendManager) : Op → BackendManager
  | .set_backend n => (s.set_backend n).2
  | .create_noise_model n => (s.create_noise_model n).2
  | .get_noise_model _ => s
  | .get_backend => s
  | .list_backends => s

/-- Run a sequence of registry method calls. -/
def runOps (s : BackendManager) (ops : List Op) : BackendManager :=
  ops.foldl applyOp s

/-- An entry of the registry dict produced by remote discovery. -/
def ibmEntry (e : String × Backend) : Prop :=
  ∃ n sim cal, e = ("IBM " ++ n, Backend.ibm n sim cal)

/-- The longest prefix of the enumeration that yields backends: the part
of the `for` loop that runs before an exception aborts it. -/
def stepsUntilFail : List RemoteStep → List RemoteStep
  | [] => []
  | .fail :: _ => []
  | .ok n sim cal :: rest => .ok n sim cal :: stepsUntilFail rest

/-- The one-qubit depolarizing channel with parameter `p`, as
`depolarizing_error(p, 1)` builds it. -/
def depolChannel1 (p : ℚ) : QuantumError :=
  ⟨[("I", 1 - 3 * (p / 4)), ("X", p / 4), ("Y", p / 4), ("Z", p / 4)]⟩

/-- A manager constructed with no provider module and no token: only the
two built-in simulators are registered. -/
def mgr0 : BackendManager := BackendManager.init ⟨false, true, true, true, []⟩ none

/-- Well-formed calibration data whose derived noise model is nonempty. -/
def calEx : Calibration := ⟨true, ⟨[("cx", ⟨[("X", 1)]⟩)]⟩⟩

/-- A discovery environment exposing one non-simulator device with the
calibration data `calEx`. -/
def envEx : IBMQEnv := ⟨true, true, true, true, [.ok "dev" false (some calEx)]⟩

/-- A manager whose registry holds the remote device of `envEx`. -/
def mgrEx : BackendManager := BackendManager.init envEx (some "token")

/-- A discovery environment whose backend enumeration yields one device
and then raises. -/
def envPartial : IBMQEnv := ⟨true, true, true, true, [.ok "alpha" false none, .fail]⟩

/-- A discovery environment where `load_account` fails. -/
def envNoLoad : IBMQEnv := ⟨true, true, false, true, [.ok "beta" false none]⟩

theorem dictGet_insert_ne {α : Type} (d : List (String × α)) (k key : String) (v : α)
    (h : k ≠ key) : dictGet (dictInsert d k v) key = dictGet d key := by
  induction d with
  | nil => simp [dictInsert, dictGet, h]
  | cons e rest ih =>
    obtain ⟨k1, v1⟩ := e
    by_cases hk : k1 = k
    · subst hk
      simp [dictInsert, dictGet, h]
    · simp [dictInsert, dictGet, hk, ih]

theorem dictInsert_append {α : Type} (acc tail : List (String × α)) (k : String) (v : α)
    (h : ∀ e ∈ acc, e.1 ≠ k) :
    dictInsert (acc ++ tail) k v = acc ++ dictInsert tail k v := by
  induction acc with
  | nil => simp
  | cons e rest ih =>
    obtain ⟨k1, v1⟩ := e
    have h1 : k1 ≠ k := h (k1, v1) (List.mem_cons_self _ _)
    simp [dictInsert, h1]
    exact ih (fun e he => h e (List.mem_cons_of_mem _ he))

theorem dictInsert_mem {α : Type} (d : List (String × α)) (k : String) (v : α) :
    ∀ e ∈ dictInsert d k v, e ∈ d ∨ e = (k, v) := by
  induction d with
  | nil => simp [dictInsert]
  | cons e0 rest ih =>
    obtain ⟨k1, v1⟩ := e0
    intro e he
    by_cases hk : k1 = k
    · simp [dictInsert, hk] at he
      rcases he with h1 | h1
      · right; simp [h1]
      · left; simp [h1]
    · simp [dictInsert, hk] at he
      rcases he with h1 | h1
      · left; simp [h1]
      · rcases ih e h1 with h2 | h2
        · left; exact List.mem_cons_of_mem _ h2
        · right; exact h2

theorem ibm_key_ne_aer (n : String) (m : String) : ("IBM " ++ n) ≠ ("Aer " ++ m) := by
  intro h
  have h2 : ("IBM " ++ n).data = ("Aer " ++ m).data := by rw [h]
  simp [String.data_append] at h2

theorem registerRemote_split (steps : List RemoteStep) (acc tail : List (String × Backend))
    (hacc : ∀ e ∈ acc, ∀ n : String, e.1 ≠ "IBM " ++ n)
    (htail : ∀ e ∈ tail, ibmEntry e) :
    ∃ tail2, registerRemote steps (acc ++ tail) = acc ++ tail2 ∧ ∀ e ∈ tail2, ibmEntry e := by
  induction steps generalizing tail with
  | nil => exact ⟨tail, rfl, htail⟩
  | cons s rest ih =>
    cases s with
    | fail => exact ⟨tail, rfl, htail⟩
    | ok n sim cal =>
      cases sim with
      | true =>
        simpa [registerRemote] using ih tail htail
      | false =>
        have hins : dictInsert (acc ++ tail) ("IBM " ++ n) (Backend.ibm n false cal)
            = acc ++ dictInsert tail ("IBM " ++ n) (Backend.ibm n false cal) :=
          dictInsert_append _ _ _ _ (fun e he => hacc e he n)
        have htail2 : ∀ e ∈ dictInsert tail ("IBM " ++ n) (Backend.ibm n false cal),
            ibmEntry e := by
          intro e he
          rcases dictInsert_mem _ _ _ e he with h1 | h1
          · exact htail e h1
          · exact ⟨n, false, cal, h1⟩
        simpa [registerRemote, hins] using ih _ htail2

theorem defaultBackends_not_ibm :
    ∀ e ∈ defaultBackends, ∀ n : String, e.1 ≠ "IBM " ++ n := by
  intro e he n
  simp [defaultBackends] at he
  rcases he with h | h <;> subst h
  · exact fun h => (ibm_key_ne_aer n "(statevector)") h.symm
  · exact fun h => (ibm_key_ne_aer n "(qasm)") h.symm

theorem init_backends_split (env : IBMQEnv) (token : Option String) :
    ∃ tail, (BackendManager.init env token).backends = defaultBackends ++ tail
      ∧ ∀ e ∈ tail, ibmEntry e := by
  unfold BackendManager.init
  by_cases h1 : (env.available && tokenTruthy token) = true
  · by_cases h2 : (env.saveOk && env.loadOk && env.providerOk) = true
    · simp only [h1, h2, if_true]
      have := registerRemote_split env.backends defaultBackends []
        defaultBackends_not_ibm (by simp)
      simpa using this
    · exact ⟨[], by simp [h1, h2], by simp⟩
  · exact ⟨[], by simp [h1], by simp⟩

theorem dictGet_default_sv (tail : List (String × Backend)) :
    dictGet (defaultBackends ++ tail) "Aer (statevector)" = some (Backend.aer "statevector") := by
  simp [defaultBackends, dictGet]

theorem dictGet_default_qasm (tail : List (String × Backend)) :
    dictGet (defaultBackends ++ tail) "Aer (qasm)" = some (Backend.aer "qasm") := by
  simp [defaultBackends, dictGet]

theorem init_backends_sv (env : IBMQEnv) (token : Option String) :
    dictGet (BackendManager.init env token).backends "Aer (statevector)"
      = some (Backend.aer "statevector") := by
  obtain ⟨tail, hsplit, -⟩ := init_backends_split env token
  rw [hsplit]
  exact dictGet_default_sv tail

theorem init_active (env : IBMQEnv) (token : Option String) :
    (BackendManager.init env token).active_backend = Backend.aer "statevector" := by
  have h := init_backends_sv env token
  unfold BackendManager.init at h ⊢
  simp only at h ⊢
  rw [h]
  rfl

theorem applyOp_backends (s : BackendManager) (op : Op) :
    (applyOp s op).backends = s.backends := by
  cases op with
  | set_backend n =>
    simp only [applyOp, BackendManager.set_backend]
    cases dictGet s.backends n <;> rfl
  | create_noise_model n =>
    simp only [applyOp, BackendManager.create_noise_model]
    cases dictGet s.backends n <;> rfl
  | get_noise_model n => rfl
  | get_backend => rfl
  | list_backends => rfl

theorem runOps_backends (s : BackendManager) (ops : List Op) :
    (runOps s ops).backends = s.backends := by
  induction ops generalizing s with
  | nil => rfl
  | cons op rest ih => rw [runOps, List.foldl_cons, ← runOps, ih, applyOp_backends]

theorem registerRemote_untilFail (steps : List RemoteStep) (acc : List (String × Backend)) :
    registerRemote steps acc = registerRemote (stepsUntilFail steps) acc := by
  induction steps generalizing acc with
  | nil => rfl
  | cons s rest ih =>
    cases s with
    | fail => rfl
    | ok n sim cal => simp [registerRemote, stepsUntilFail, ih]

theorem depolarizing_error_eval (p : ℚ) (h0 : 0 ≤ p) (h1 : p ≤ 4 / 3) :
    depolarizing_error p 1 = Except.ok (depolChannel1 p) := by
  unfold depolarizing_error
  rw [if_neg (by push_neg; norm_num; constructor <;> linarith)]
  rw [show pauliStrings 1 = ["I", "X", "Y", "Z"] from by decide]
  simp only [List.map_cons, List.map_nil, Except.ok.injEq, QuantumError.mk.injEq,
    List.cons.injEq, Prod.mk.injEq, depolChannel1]
  norm_num

/-- C1: if the name is not registered, `set_backend` fails with a
`ValueError` (the spec's `UnknownBackend`) and the manager state — in
particular the previously active backend — is unchanged; if the name is
registered, it sets the active backend to the named backend and returns
it, touching nothing else. -/
theorem select_backend_spec (s : BackendManager) (name : String) :
    (dictGet s.backends name = none →
      (s.set_backend name).1 = Except.error "ValueError: Backend not available."
        ∧ (s.set_backend name).2 = s) ∧
    (∀ b, dictGet s.backends name = some b →
      (s.set_backend name).1 = Except.ok b
        ∧ (s.set_backend name).2.active_backend = b
        ∧ (s.set_backend name).2.backends = s.backends
        ∧ (s.set_backend name).2.noise_models = s.noise_models) := by
  constructor
  · intro h
    simp [BackendManager.set_backend, h]
  · intro b h
    simp [BackendManager.set_backend, h]

/-- C1 witness: selecting the unregistered name `"nonexistent"` on a
freshly constructed manager fails and leaves the state unchanged. -/
theorem select_backend_spec_witness :
    (mgr0.set_backend "nonexistent").1 = Except.error "ValueError: Backend not available."
      ∧ (mgr0.set_backend "nonexistent").2 = mgr0 :=
  (select_backend_spec mgr0 "nonexistent").1 (by decide)

/-- C2 counterexample: in the concrete state `mgrEx` the registry holds a
backend with well-formed calibration data from which
`NoiseModel.from_backend` would derive a nonempty model, and no model is
cached, yet `get_noise_model` (the spec's `noise_model_for`) returns the
empty model without attempting any derivation — refuting the sentence
that an uncached lookup derives a model from the calibration data. -/
theorem noise_model_for_counterexample :
    dictGet mgrEx.noise_models "IBM dev" = none
      ∧ (dictGet mgrEx.backends "IBM dev").map Backend.properties = some (some calEx)
      ∧ calEx.wellFormed = true
      ∧ NoiseModel.from_backend (some calEx) = Except.ok calEx.derived
      ∧ mgrEx.get_noise_model "IBM dev" = NoiseModel.empty
      ∧ mgrEx.get_noise_model "IBM dev" ≠ calEx.derived :=
  ⟨by decide, by decide, by decide, rfl, by decide, by decide⟩

/-- C2 amended: `get_noise_model` returns the cached model when one is
present and otherwise returns a fresh empty `NoiseModel` without
consulting the backend's calibration data; derivation from calibration
happens only in the separate `create_noise_model`, which does fall back
to an empty model when the calibration data is absent or malformed. -/
theorem noise_model_for_spec (s : BackendManager) (name : String) :
    (∀ nm, dictGet s.noise_models name = some nm → s.get_noise_model name = nm) ∧
    (dictGet s.noise_models name = none → s.get_noise_model name = NoiseModel.empty) ∧
    (∀ b, dictGet s.backends name = some b → b.properties = none →
      (s.create_noise_model name).1 = Except.ok NoiseModel.empty) ∧
    (∀ b cal, dictGet s.backends name = some b → b.properties = some cal →
      cal.wellFormed = false →
      (s.create_noise_model name).1 = Except.ok NoiseModel.empty) := by
  refine ⟨?_, ?_, ?_, ?_⟩
  · intro nm h
    simp [BackendManager.get_noise_model, h]
  · intro h
    simp [BackendManager.get_noise_model, h]
  · intro b hb hp
    simp [BackendManager.create_noise_model, hb, NoiseModel.from_backend, hp]
  · intro b cal hb hp hw
    simp [BackendManager.create_noise_model, hb, NoiseModel.from_backend, hp, hw]

/-- C2 witness: an uncached name on the concrete manager `mgrEx` yields
the empty noise model. -/
theorem noise_model_for_spec_witness :
    mgrEx.get_noise_model "other" = NoiseModel.empty :=
  (noise_model_for_spec mgrEx "other").2.1 (by decide)

/-- C3 counterexample: `sample_depolarizing(5/4)` succeeds even though
`5/4` lies outside `[0, 1]`, refuting the sentence that every probability
outside `[0, 1]` is rejected: the repository functions validate nothing
themselves, and the underlying `depolarizing_error` accepts any parameter
up to `4/3` for one qubit. -/
theorem synthetic_noise_validation_counterexample :
    ¬((5 : ℚ) / 4 ≤ 1) ∧ ∃ nm, BackendManager.sample_depolarizing (5 / 4) = Except.ok nm := by
  constructor
  · norm_num
  · unfold BackendManager.sample_depolarizing depolarizing_error
    rw [if_neg (by norm_num)]
    exact ⟨_, rfl⟩

/-- C3 amended: neither constructor validates `p` itself; the library
constructors they call do. `sample_pauli p` succeeds exactly when
`p ∈ [0, 1]` (so within `[0, 1]` both constructors succeed and return a
noise model), but `sample_depolarizing p` succeeds exactly when
`p ∈ [0, 4/3]`, so parameters in `(1, 4/3]` are not rejected. -/
theorem synthetic_noise_validation_spec (p : ℚ) :
    ((∃ nm, BackendManager.sample_pauli p = Except.ok nm) ↔ (0 ≤ p ∧ p ≤ 1)) ∧
    ((∃ nm, BackendManager.sample_depolarizing p = Except.ok nm) ↔ (0 ≤ p ∧ p ≤ 4 / 3)) := by
  constructor
  · unfold BackendManager.sample_pauli pauli_error
    by_cases h : (∀ op ∈ [("X", p), ("I", 1 - p)], 0 ≤ op.2) ∧
        ([("X", p), ("I", 1 - p)].map Prod.snd).sum = 1
    · rw [if_pos h]
      obtain ⟨hnn, -⟩ := h
      have hx := hnn ("X", p) (by simp)
      have hi := hnn ("I", 1 - p) (by simp)
      simp only at hx hi
      exact ⟨fun _ => ⟨hx, by linarith⟩, fun _ => ⟨_, rfl⟩⟩
    · rw [if_neg h]
      constructor
      · rintro ⟨nm, hnm⟩
        cases hnm
      · rintro ⟨h0, h1⟩
        refine absurd ⟨?_, by simp⟩ h
        intro op hop
        simp only [List.mem_cons, List.mem_singleton] at hop
        rcases hop with rfl | hop
        · exact h0
        · rcases hop with rfl | hop
          · simp only
            linarith
          · simp at hop
  · unfold BackendManager.sample_depolarizing depolarizing_error
    by_cases h : p < 0 ∨ ((4 : ℚ) ^ (1 : Nat)) / ((4 : ℚ) ^ (1 : Nat) - 1) < p
    · rw [if_pos h]
      constructor
      · rintro ⟨nm, hnm⟩
        cases hnm
      · rintro ⟨h0, h1⟩
        rcases h with h | h
        · linarith
        · rw [show ((4 : ℚ) ^ (1 : Nat)) / ((4 : ℚ) ^ (1 : Nat) - 1) = 4 / 3 by norm_num] at h
          linarith
    · rw [if_neg h]
      push_neg at h
      obtain ⟨h0, hm⟩ := h
      rw [show ((4 : ℚ) ^ (1 : Nat)) / ((4 : ℚ) ^ (1 : Nat) - 1) = 4 / 3 by norm_num] at hm
      exact ⟨fun _ => ⟨h0, hm⟩, fun _ => ⟨_, rfl⟩⟩

/-- C3 witness: `sample_pauli(1/2)` succeeds, `1/2` being in `[0, 1]`. -/
theorem synthetic_noise_validation_spec_witness :
    ∃ nm, BackendManager.sample_pauli ((1 : ℚ) / 2) = Except.ok nm :=
  ((synthetic_noise_validation_spec ((1 : ℚ) / 2)).1).mpr (by norm_num)

/-- C4 counterexample: against the environment `envPartial`, whose
enumeration yields the device `alpha` and then raises, construction
swallows the failure but keeps `"IBM alpha"` registered — refuting the
sentence that no failure outcome leaves partially registered remote
backends in the registry. -/
theorem discovery_partial_counterexample :
    RemoteStep.fail ∈ envPartial.backends
      ∧ (BackendManager.init envPartial (some "token")).list_backends
        = ["Aer (statevector)", "Aer (qasm)", "IBM alpha"] := by decide

/-- C4 amended: construction never raises (it is a total function of the
discovery environment); a failure of account save, account load, or
provider lookup registers no remote backends at all; and a failure during
backend enumeration behaves exactly as if the enumeration had ended just
before the failing step, so the devices already processed stay
registered. -/
theorem discovery_degrade_spec (env : IBMQEnv) (token : Option String) :
    ((env.available && tokenTruthy token) = true →
      (env.saveOk && env.loadOk && env.providerOk) = false →
      (BackendManager.init env token).backends = defaultBackends) ∧
    BackendManager.init env token
      = BackendManager.init
          ⟨env.available, env.saveOk, env.loadOk, env.providerOk, stepsUntilFail env.backends⟩
          token := by
  constructor
  · intro h1 h2
    simp [BackendManager.init, h1, h2]
  · by_cases h1 : (env.available && tokenTruthy token) = true
    · by_cases h2 : (env.saveOk && env.loadOk && env.providerOk) = true
      · simp [BackendManager.init, h1, h2, ← registerRemote_untilFail]
      · simp [BackendManager.init, h1, h2]
    · simp [BackendManager.init, h1]

/-- C4 witness: when `load_account` fails, only the two built-in
simulators are registered. -/
theorem discovery_degrade_spec_witness :
    (BackendManager.init envNoLoad (some "token")).backends = defaultBackends :=
  (discovery_degrade_spec envNoLoad (some "token")).1 (by decide) (by decide)

/-- C5: for every construction input, the two built-in simulators are
registered — `"Aer (statevector)"` configured for exact statevector
evolution and `"Aer (qasm)"` configured for sampling-based execution —
and they are the only built-in (Aer) entries of the registry; their
installation cannot fail, `BackendManager.init` being a total function. -/
theorem default_simulators_spec (env : IBMQEnv) (token : Option String) :
    dictGet (BackendManager.init env token).backends "Aer (statevector)"
        = some (Backend.aer "statevector")
      ∧ dictGet (BackendManager.init env token).backends "Aer (qasm)"
        = some (Backend.aer "qasm")
      ∧ (BackendManager.init env token).backends.filter (fun e => e.2.isAer)
        = defaultBackends := by
  obtain ⟨tail, hsplit, htail⟩ := init_backends_split env token
  refine ⟨by rw [hsplit]; exact dictGet_default_sv tail,
          by rw [hsplit]; exact dictGet_default_qasm tail, ?_⟩
  rw [hsplit]
  rw [List.filter_append]
  have h1 : defaultBackends.filter (fun e => e.2.isAer) = defaultBackends := by decide
  have h2 : tail.filter (fun e => e.2.isAer) = [] := by
    rw [List.filter_eq_nil_iff]
    intro e he
    obtain ⟨n, sim, cal, rfl⟩ := htail e he
    simp [Backend.isAer]
  rw [h1, h2, List.append_nil]

/-- C6: for every `p ∈ [0, 1]`, `sample_depolarizing p` succeeds and
attaches one and the same one-qubit depolarizing channel to every
single-qubit gate of the native set — `u1`, `u2` and `u3` — and to
nothing else; the channel's probabilities sum to 1. -/
theorem depolarizing_uniform_spec (p : ℚ) (h0 : 0 ≤ p) (h1 : p ≤ 1) :
    BackendManager.sample_depolarizing p
      = Except.ok ⟨[("u1", depolChannel1 p), ("u2", depolChannel1 p), ("u3", depolChannel1 p)]⟩
    ∧ ((depolChannel1 p).probs.map Prod.snd).sum = 1 := by
  constructor
  · rw [BackendManager.sample_depolarizing, depolarizing_error_eval p h0 (by linarith)]
    rfl
  · simp only [depolChannel1, List.map_cons, List.map_nil, List.sum_cons, List.sum_nil]
    ring

/-- C6 witness: the depolarizing constructor at `p = 1/2`. -/
theorem depolarizing_uniform_spec_witness :
    BackendManager.sample_depolarizing ((1 : ℚ) / 2)
      = Except.ok ⟨[("u1", depolChannel1 ((1 : ℚ) / 2)), ("u2", depolChannel1 ((1 : ℚ) / 2)),
                    ("u3", depolChannel1 ((1 : ℚ) / 2))]⟩
    ∧ ((depolChannel1 ((1 : ℚ) / 2)).probs.map Prod.snd).sum = 1 :=
  depolarizing_uniform_spec ((1 : ℚ) / 2) (by norm_num) (by norm_num)

/-- C7: for every `p ∈ [0, 1]`, `sample_pauli p` succeeds and attaches to
the primary entangling gate `cx` the bit-flip channel weighting `X` with
`p` and `I` with `1 - p`, whose probabilities sum to exactly 1. -/
theorem pauli_bitflip_spec (p : ℚ) (h0 : 0 ≤ p) (h1 : p ≤ 1) :
    BackendManager.sample_pauli p
      = Except.ok ⟨[("cx", ⟨[("X", p), ("I", 1 - p)]⟩)]⟩
    ∧ ([("X", p), ("I", 1 - p)].map Prod.snd).sum = 1 := by
  have hsum : ([("X", p), ("I", 1 - p)].map Prod.snd).sum = 1 := by
    simp only [List.map_cons, List.map_nil, List.sum_cons, List.sum_nil]
    ring
  refine ⟨?_, hsum⟩
  rw [BackendManager.sample_pauli, pauli_error, if_pos]
  · rfl
  · refine ⟨?_, hsum⟩
    intro op hop
    simp only [List.mem_cons, List.not_mem_nil, or_false] at hop
    rcases hop with rfl | rfl
    · exact h0
    · simp only
      linarith

/-- C7 witness: the Pauli bit-flip constructor at `p = 1/3`. -/
theorem pauli_bitflip_spec_witness :
    BackendManager.sample_pauli ((1 : ℚ) / 3)
      = Except.ok ⟨[("cx", ⟨[("X", (1 : ℚ) / 3), ("I", 1 - (1 : ℚ) / 3)]⟩)]⟩
    ∧ ([("X", (1 : ℚ) / 3), ("I", 1 - (1 : ℚ) / 3)].map Prod.snd).sum = 1 :=
  pauli_bitflip_spec ((1 : ℚ) / 3) (by norm_num) (by norm_num)

/-- C8: after construction and any sequence of registry method calls,
`list_backends` returns the two built-in simulator names first, followed
by the names of the discovered remote backends (all of the form
`"IBM " ++ name`); the association-list model keeps keys in registration
order, so the returned sequence is the registration order. -/
theorem list_backends_spec (env : IBMQEnv) (token : Option String) (ops : List Op) :
    ∃ remote, (runOps (BackendManager.init env token) ops).list_backends
        = ["Aer (statevector)", "Aer (qasm)"] ++ remote
      ∧ ∀ r ∈ remote, ∃ n : String, r = "IBM " ++ n := by
  obtain ⟨tail, hsplit, htail⟩ := init_backends_split env token
  refine ⟨tail.map Prod.fst, ?_, ?_⟩
  · rw [BackendManager.list_backends, runOps_backends, hsplit]
    simp [defaultBackends]
  · intro r hr
    obtain ⟨e, he, rfl⟩ := List.mem_map.mp hr
    obtain ⟨n, sim, cal, rfl⟩ := htail e he
    exact ⟨n, rfl⟩

/-- C9: `get_noise_model` is a total function (it never raises) and
returns a fresh empty `NoiseModel` for every uncached name, including
names absent from the registry entirely; in contrast,
`create_noise_model` fails with a `ValueError` for unregistered names,
leaving the state unchanged. -/
theorem get_noise_model_total_spec (s : BackendManager) (name : String) :
    (dictGet s.noise_models name = none → s.get_noise_model name = NoiseModel.empty) ∧
    (dictGet s.backends name = none →
      (s.create_noise_model name).1 = Except.error "ValueError: Backend not available."
        ∧ (s.create_noise_model name).2 = s) := by
  constructor
  · intro h
    simp [BackendManager.get_noise_model, h]
  · intro h
    simp [BackendManager.create_noise_model, h]

/-- C9 witness: the name `"ghost"`, absent from `mgr0` both as a cache
key and as a registered backend. -/
theorem get_noise_model_total_spec_witness :
    mgr0.get_noise_model "ghost" = NoiseModel.empty
      ∧ (mgr0.create_noise_model "ghost").1
        = Except.error "ValueError: Backend not available." :=
  ⟨(get_noise_model_total_spec mgr0 "ghost").1 (by decide),
   ((get_noise_model_total_spec mgr0 "ghost").2 (by decide)).1⟩

/-- C10: immediately after construction, for every construction input,
the active backend returned by `get_backend` is the exact-statevector
built-in simulator, the one registered under `"Aer (statevector)"`. -/
theorem initial_active_backend_spec (env : IBMQEnv) (token : Option String) :
    (BackendManager.init env token).get_backend = Backend.aer "statevector"
      ∧ dictGet (BackendManager.init env token).backends "Aer (statevector)"
        = some (Backend.aer "statevector") :=
  ⟨init_active env token, init_backends_sv env token⟩

end Transpile
